import Mathlib

/-!
Verification development for the Dante translator core
(`src/services/translator.py` and `src/utils/cache.py`).

The external provider SDK calls (DeepL / Gemini / OpenAI HTTP backends) are
the only effects; they are modelled as oracle functions supplied as
parameters.  A Python call that raises is modelled with `Except` /
`PyOutcome`: `PyOutcome.err` is a raised `TranslationError` (carrying
`str(e)`), `PyOutcome.exn` any other raised exception.  Python string
truthiness on keys and language codes is modelled by comparison with `""`,
and `None` by `Option.none`.  Time (`time.time()`) is passed explicitly as
a natural number.
-/

/-- Outcome of calling a provider object's `translate` method, as seen by
the orchestrator: a returned string, a raised `TranslationError`, or any
other raised exception. -/
inductive PyOutcome where
  | ok (s : String)
  | err (msg : String)
  | exn (msg : String)
deriving DecidableEq, Repr

/-- The result dictionary `{"translation": _, "provider": _, "error": _}`
returned by `TranslatorService.translate` and `smart_translate`. -/
structure TransResult where
  translation : String
  provider : Option String
  error : Option String
deriving DecidableEq, Repr

/-! ## Cache (`src/utils/cache.py`) -/

/-- One value of the `self.cache` dict: the stored result plus the
insertion timestamp. -/
structure CacheEntry where
  result : TransResult
  timestamp : Nat
deriving DecidableEq, Repr

/-- `TranslationCache.__init__`: the dict is modelled as an insertion-ordered
association list with unique keys, exactly like a Python `dict`. -/
structure TranslationCache where
  cache : List (String × CacheEntry)
  max_size : Nat
  ttl : Nat
deriving DecidableEq, Repr

/-- `TranslationCache._generate_key`: `f"{text}|{source}|{target_lang}|{tone}"`
where a falsy (`None` or empty) source language normalizes to `"auto"`. -/
def generate_key (text target_lang : String) (source_lang : Option String) (tone : String) :
    String :=
  let source := match source_lang with
    | none => "auto"
    | some s => if s = "" then "auto" else s
  text ++ "|" ++ source ++ "|" ++ target_lang ++ "|" ++ tone

/-- `TranslationCache.get_translation`: probe the dict; on a fresh entry
return the stored result, on an expired entry delete it and miss, otherwise
miss.  Returns the (possibly updated) cache alongside the lookup result. -/
def get_translation_key (c : TranslationCache) (now : Nat) (key : String) :
    Option TransResult × TranslationCache :=
  match c.cache.find? (fun p => p.1 == key) with
  | some e =>
      if now - e.2.timestamp < c.ttl then (some e.2.result, c)
      else (none, { c with cache := c.cache.filter (fun p => !(p.1 == key)) })
  | none => (none, c)

/-- The body of `get_translation` after `key = self._generate_key(...)`. -/
def get_translation (c : TranslationCache) (now : Nat) (text target_lang : String)
    (source_lang : Option String) (tone : String) :
    Option TransResult × TranslationCache :=
  get_translation_key c now (generate_key text target_lang source_lang tone)

/-- Python `self.cache[key] = entry` on a dict: overwrite in place when the
key is present, otherwise append at the end (dicts preserve insertion
order). -/
def dictInsert (l : List (String × CacheEntry)) (k : String) (v : CacheEntry) :
    List (String × CacheEntry) :=
  if l.any (fun p => p.1 == k) then
    l.map (fun p => if p.1 == k then (k, v) else p)
  else l ++ [(k, v)]

/-- The eviction pass at the end of `TranslationCache.cache_translation`:
if the size bound is exceeded, delete the oldest keys (stable sort by
timestamp) until the bound holds. -/
def evict_oldest (c : TranslationCache) (newCache : List (String × CacheEntry)) :
    TranslationCache :=
  if newCache.length > c.max_size then
    { c with cache := newCache.filter (fun p =>
        !(((newCache.mergeSort (fun a b => decide (a.2.timestamp ≤ b.2.timestamp))).map
          Prod.fst).take (newCache.length - c.max_size)).contains p.1) }
  else { c with cache := newCache }

/-- `TranslationCache.cache_translation` proper: guard, insert, evict. -/
def cache_translation (c : TranslationCache) (now : Nat) (text : String) (result : TransResult)
    (target_lang : String) (source_lang : Option String) (tone : String) : TranslationCache :=
  if result.translation = "" ∨ result.error.isSome then c
  else
    evict_oldest c
      (dictInsert c.cache (generate_key text target_lang source_lang tone) ⟨result, now⟩)

/-! ## Provider adapters (`src/services/translator.py`) -/

/-- `DeepLTranslator._normalize_lang_code`: falsy code gives `None`;
two-letter codes are uppercased; `base-variant` codes become
`BASE-VARIANT`; anything else is uppercased. -/
def normalize_lang_code (lang_code : String) : Option String :=
  if lang_code = "" then none
  else if lang_code.length = 2 then some lang_code.toUpper
  else if lang_code.contains '-' then
    let base := lang_code.takeWhile (fun ch => ch != '-')
    let variant := (lang_code.dropWhile (fun ch => ch != '-')).drop 1
    some (base.toUpper ++ "-" ++ variant.toUpper)
  else some lang_code.toUpper

/-- The `lang_map` dict shared by `GeminiTranslator._get_language_name` and
`OpenAITranslator._get_language_name`. -/
def lang_map : List (String × String) :=
  [("en", "English"), ("es", "Spanish"), ("fr", "French"), ("de", "German"),
   ("it", "Italian"), ("pt", "Portuguese"), ("ru", "Russian"), ("zh", "Chinese"),
   ("ja", "Japanese"), ("ko", "Korean"), ("ar", "Arabic"), ("hi", "Hindi"),
   ("nl", "Dutch"), ("pl", "Polish"), ("tr", "Turkish")]

/-- `_get_language_name`: look the lowercased base code up in `lang_map`,
falling back to the raw code. -/
def get_language_name (lang_code : String) : String :=
  let base_code := (lang_code.takeWhile (fun ch => ch != '-')).toLower
  (lang_map.lookup base_code).getD lang_code

/-- The request tuple handed to `deepl.Translator.translate_text`. -/
structure DeepLReq where
  text : String
  target_lang : Option String
  source_lang : Option String
  formality : Option String
deriving DecidableEq, Repr

/-- `DeepLTranslator` state: the key plus whether the `deepl.Translator`
client object exists (construction may fail, caught in `__init__`). -/
structure DeepLTranslator where
  api_key : String
  client : Bool
deriving DecidableEq, Repr

/-- `DeepLTranslator.__init__` with a constructor-success oracle. -/
def DeepLTranslator.init (api_key : String) (ctor_ok : Bool) : DeepLTranslator :=
  ⟨api_key, (api_key != "") && ctor_ok⟩

/-- `DeepLTranslator.is_available`. -/
def DeepLTranslator.is_available (t : DeepLTranslator) : Bool :=
  (t.api_key != "") && t.client

/-- The tone mapping and language-code normalization performed inside
`DeepLTranslator.translate` before the API call. -/
def deepl_request (text target_lang : String) (source_lang : Option String) (tone : String) :
    DeepLReq :=
  let formality :=
    if tone.toLower = "formal" then some "prefer_more"
    else if tone.toLower = "informal" then some "prefer_less"
    else none
  let target_lang_code := normalize_lang_code target_lang
  let source_lang_code := match source_lang with
    | none => none
    | some s => if s = "" then none else normalize_lang_code s
  ⟨text, target_lang_code, source_lang_code, formality⟩

/-- `DeepLTranslator.translate`; `backend` is the
`deepl.Translator.translate_text` call, whose failure carries `str(e)`.
Both `except` arms raise `TranslationError` with the same message.  The
success payload `result.text` is returned verbatim — there is no
empty-string check. -/
def DeepLTranslator.translate (t : DeepLTranslator)
    (backend : DeepLReq → Except String String)
    (text target_lang : String) (source_lang : Option String) (tone : String) :
    Except String String :=
  if !t.is_available then
    .error "DeepL API key not available or client initialization failed"
  else
    match backend (deepl_request text target_lang source_lang tone) with
    | .ok s => .ok s
    | .error e => .error ("DeepL translation failed: " ++ e)

/-- Python `str.strip()`: remove leading and trailing whitespace.  Defined
over the underlying character list so that it evaluates by kernel
reduction. -/
def py_strip (s : String) : String :=
  ⟨((s.data.dropWhile Char.isWhitespace).reverse.dropWhile Char.isWhitespace).reverse⟩

/-- `GeminiTranslator` state: just the key (availability is the base-class
key truthiness check). -/
structure GeminiTranslator where
  api_key : String
deriving DecidableEq, Repr

/-- `BaseTranslator.is_available` as inherited by `GeminiTranslator`. -/
def GeminiTranslator.is_available (t : GeminiTranslator) : Bool :=
  t.api_key != ""

/-- The prompt built inside `GeminiTranslator.translate`. -/
def gemini_prompt (text target_lang : String) (source_lang : Option String) (tone : String) :
    String :=
  let p1 := "Translate the text below"
  let p2 := match source_lang with
    | none => p1
    | some s => if s = "" then p1 else p1 ++ " from " ++ get_language_name s
  let p3 := p2 ++ " to " ++ get_language_name target_lang
  let p4 :=
    if tone.toLower = "formal" ∨ tone.toLower = "informal" then
      p3 ++ " using " ++ tone ++ " tone"
    else p3
  p4 ++ ". Respond with ONLY the translation, no explanations, prefixes, or additional text. Here\x27s the text to translate:\n\n" ++ text

/-- `GeminiTranslator.translate`; `backend` is the
`model.generate_content` call.  The success payload is returned after
`.strip()`, with no empty-string check. -/
def GeminiTranslator.translate (t : GeminiTranslator)
    (backend : String → Except String String)
    (text target_lang : String) (source_lang : Option String) (tone : String) :
    Except String String :=
  if !t.is_available then .error "Gemini API key not available"
  else
    match backend (gemini_prompt text target_lang source_lang tone) with
    | .ok s => .ok (py_strip s)
    | .error e => .error ("Gemini translation failed: " ++ e)

/-- The fixed system prompt of `OpenAITranslator.translate`. -/
def openai_system_prompt : String :=
  "You are a translation tool that provides only direct translations with no explanations, no introductory text, no notes, and no AI tendencies like \x27Sure, I\x27ll translate that\x27 or \x27Here\x27s the translation\x27. Return only the translated text itself."

/-- The user prompt built inside `OpenAITranslator.translate`. -/
def openai_user_prompt (text target_lang : String) (source_lang : Option String) (tone : String) :
    String :=
  let p1 := "Translate this text"
  let p2 := match source_lang with
    | none => p1
    | some s => if s = "" then p1 else p1 ++ " from " ++ get_language_name s
  let p3 := p2 ++ " to " ++ get_language_name target_lang
  let p4 :=
    if tone.toLower = "formal" ∨ tone.toLower = "informal" then
      p3 ++ " using " ++ tone ++ " tone"
    else p3
  p4 ++ ":\n\n" ++ text

/-- `OpenAITranslator` state. -/
structure OpenAITranslator where
  api_key : String
  model : String
  client : Bool
deriving DecidableEq, Repr

/-- `OpenAITranslator.__init__` with the default model; the `OpenAI`
client is constructed exactly when the key is truthy. -/
def OpenAITranslator.init (api_key : String) : OpenAITranslator :=
  ⟨api_key, "gpt-3.5-turbo", api_key != ""⟩

/-- `OpenAITranslator.is_available`. -/
def OpenAITranslator.is_available (t : OpenAITranslator) : Bool :=
  (t.api_key != "") && t.client

/-- `OpenAITranslator.translate`; `backend` is the chat-completions call
taking the system and user prompts.  The payload is returned after
`.strip()`, with no empty-string check. -/
def OpenAITranslator.translate (t : OpenAITranslator)
    (backend : String → String → Except String String)
    (text target_lang : String) (source_lang : Option String) (tone : String) :
    Except String String :=
  if !t.is_available then .error "OpenAI API key not available"
  else
    match backend openai_system_prompt (openai_user_prompt text target_lang source_lang tone) with
    | .ok s => .ok (py_strip s)
    | .error e => .error ("OpenAI translation failed: " ++ e)

/-! ## Fallback orchestrator (`TranslatorService`) -/

/-- An element of `TranslatorService.providers`: a name and the behaviour
of its `translate` method on the current request, indexed by how many
times the provider has been called in this request (the backend may answer
differently on different attempts). -/
structure Provider where
  name : String
  translate : Nat → PyOutcome

/-- The diagnostic recorded by the orchestrator:
`f"{provider.name} (attempt {attempt + 1}): {str(e)}"`. -/
def attemptDiag (pname : String) (attempt : Nat) (msg : String) : String :=
  pname ++ " (attempt " ++ toString (attempt + 1) ++ "): " ++ msg

/-- The inner `for attempt in range(retry_count + 1)` loop of
`TranslatorService.translate` for one provider: first success wins, a
`TranslationError` appends a diagnostic and retries, any other exception
propagates (only `TranslationError` is caught). -/
def tryAttempts (p : Provider) : Nat → Nat → List String → Except String (TransResult ⊕ List String)
  | 0, _, errs => .ok (.inr errs)
  | n + 1, idx, errs =>
      match p.translate idx with
      | .ok t => .ok (.inl ⟨t, some p.name, none⟩)
      | .err m => tryAttempts p n (idx + 1) (errs ++ [attemptDiag p.name idx m])
      | .exn m => .error m

/-- The outer provider loop of `TranslatorService.translate`, threading the
accumulated `errors` list; when every provider is exhausted the aggregate
failure result is built. -/
def tryProviders : List Provider → Nat → List String → Except String TransResult
  | [], _, errs =>
      .ok ⟨"", none, some ("All translation providers failed: " ++ String.intercalate "; " errs)⟩
  | p :: ps, rc, errs =>
      match tryAttempts p (rc + 1) 0 errs with
      | .error m => .error m
      | .ok (.inl r) => .ok r
      | .ok (.inr errs2) => tryProviders ps rc errs2

/-- `TranslatorService.translate`: the no-provider guard, then the double
loop.  An `Except.error` value is a Python exception escaping the method. -/
def service_translate (providers : List Provider) (retry_count : Nat) :
    Except String TransResult :=
  if providers.isEmpty then
    .ok ⟨"", none, some "No translation providers available"⟩
  else tryProviders providers retry_count []

/-! ## Entry function (`smart_translate`) -/

/-- The three backend oracles plus the DeepL client-constructor outcome,
per call index. -/
structure Backends where
  deepl : Nat → DeepLReq → Except String String
  deepl_ctor_ok : Bool
  gemini : Nat → String → Except String String
  openai : Nat → String → String → Except String String

/-- View a fully-normalizing adapter call (which raises only
`TranslationError`) as a `PyOutcome` for the orchestrator. -/
def toPyOutcome : Except String String → PyOutcome
  | .ok s => .ok s
  | .error m => .err m

/-- `TranslatorService.setup_providers` applied to the current request:
DeepL, Gemini, OpenAI in order, each included when its key is truthy. -/
def setup_providers (B : Backends) (deepl_key gemini_key openai_key : String)
    (text target_lang : String) (source_lang : Option String) (tone : String) : List Provider :=
  (if deepl_key != "" then
     [⟨"deepl", fun i =>
        toPyOutcome ((DeepLTranslator.init deepl_key B.deepl_ctor_ok).translate (B.deepl i)
          text target_lang source_lang tone)⟩]
   else []) ++
  (if gemini_key != "" then
     [⟨"gemini", fun i =>
        toPyOutcome ((GeminiTranslator.mk gemini_key).translate (B.gemini i)
          text target_lang source_lang tone)⟩]
   else []) ++
  (if openai_key != "" then
     [⟨"openai", fun i =>
        toPyOutcome ((OpenAITranslator.init openai_key).translate (B.openai i)
          text target_lang source_lang tone)⟩]
   else [])

/-- The single-credential fast path of `smart_translate` (the body of
`if len(available_keys) == 1`): construct the one adapter, call it once,
and catch any exception into a `"<Provider> translation failed: ..."`
error result. -/
def single_provider_path (B : Backends) (text target_lang : String)
    (source_lang : Option String) (tone : String)
    (deepl_key gemini_key openai_key : String) : TransResult :=
  if deepl_key != "" then
    match (DeepLTranslator.init deepl_key B.deepl_ctor_ok).translate (B.deepl 0)
        text target_lang source_lang tone with
    | .ok t => ⟨t, some "deepl", none⟩
    | .error m => ⟨"", none, some ("DeepL translation failed: " ++ m)⟩
  else if gemini_key != "" then
    match (GeminiTranslator.mk gemini_key).translate (B.gemini 0)
        text target_lang source_lang tone with
    | .ok t => ⟨t, some "gemini", none⟩
    | .error m => ⟨"", none, some ("Gemini translation failed: " ++ m)⟩
  else if openai_key != "" then
    match (OpenAITranslator.init openai_key).translate (B.openai 0)
        text target_lang source_lang tone with
    | .ok t => ⟨t, some "openai", none⟩
    | .error m => ⟨"", none, some ("OpenAI translation failed: " ++ m)⟩
  else ⟨"", none, some "No translation providers available"⟩

/-- `len([k for k in [deepl_key, gemini_key, openai_key] if k])`. -/
def count_keys (deepl_key gemini_key openai_key : String) : Nat :=
  (if deepl_key != "" then 1 else 0) + (if gemini_key != "" then 1 else 0) +
    (if openai_key != "" then 1 else 0)

/-- `smart_translate`: cache probe, single-credential fast path or
orchestrator, then success-only write-through to the cache.  Returns the
result together with the updated cache; `Except.error` is a propagating
Python exception. -/
def smart_translate (B : Backends) (c : TranslationCache) (now : Nat)
    (text target_lang : String) (source_lang : Option String) (tone : String)
    (deepl_key gemini_key openai_key : String) (use_cache : Bool) (retry_count : Nat) :
    Except String (TransResult × TranslationCache) :=
  let probe := if use_cache then get_translation c now text target_lang source_lang tone
               else (none, c)
  match probe.1 with
  | some r => .ok (r, probe.2)
  | none =>
    let c1 := probe.2
    let resE :=
      if count_keys deepl_key gemini_key openai_key = 1 then
        Except.ok (single_provider_path B text target_lang source_lang tone
          deepl_key gemini_key openai_key)
      else
        service_translate
          (setup_providers B deepl_key gemini_key openai_key text target_lang source_lang tone)
          retry_count
    match resE with
    | .error m => .error m
    | .ok result =>
      let c2 := if use_cache ∧ result.translation ≠ "" ∧ result.error = none then
                  cache_translation c1 now text result target_lang source_lang tone
                else c1
      .ok (result, c2)

/-- Repeated stores with a fixed target language, tone, omitted source
language, and a fixed (successful) result: the texts and timestamps vary. -/
def store_all (c : TranslationCache) (target_lang tone : String) (result : TransResult) :
    List (String × Nat) → TranslationCache
  | [] => c
  | x :: xs =>
      store_all (cache_translation c x.2 x.1 result target_lang none tone) target_lang tone
        result xs

/-! ## Helper lemmas -/

theorem toPyOutcome_eq_ok {e : Except String String} {t : String} :
    toPyOutcome e = PyOutcome.ok t ↔ e = Except.ok t := by
  cases e <;> simp [toPyOutcome]

theorem toPyOutcome_ne_exn (e : Except String String) (m : String) :
    toPyOutcome e ≠ PyOutcome.exn m := by
  cases e <;> simp [toPyOutcome]

theorem tryAttempts_no_exn (p : Provider)
    (h : ∀ i m, p.translate i ≠ PyOutcome.exn m) :
    ∀ (n idx : Nat) (errs : List String), ∃ v, tryAttempts p n idx errs = Except.ok v := by
  intro n
  induction n with
  | zero => intro idx errs; exact ⟨.inr errs, rfl⟩
  | succ n ih =>
      intro idx errs
      cases htr : p.translate idx with
      | ok t => exact ⟨.inl ⟨t, some p.name, none⟩, by simp [tryAttempts, htr]⟩
      | err m =>
          obtain ⟨v, hv⟩ := ih (idx + 1) (errs ++ [attemptDiag p.name idx m])
          exact ⟨v, by simp [tryAttempts, htr, hv]⟩
      | exn m => exact absurd htr (h idx m)

theorem tryProviders_no_exn :
    ∀ (ps : List Provider) (rc : Nat) (errs : List String),
    (∀ p ∈ ps, ∀ i m, p.translate i ≠ PyOutcome.exn m) →
    ∃ r, tryProviders ps rc errs = Except.ok r := by
  intro ps
  induction ps with
  | nil => intro rc errs _; exact ⟨_, rfl⟩
  | cons p ps ih =>
      intro rc errs h
      obtain ⟨v, hv⟩ := tryAttempts_no_exn p (h p (by simp)) (rc + 1) 0 errs
      cases v with
      | inl r => exact ⟨r, by simp [tryProviders, hv]⟩
      | inr errs2 =>
          obtain ⟨r, hr⟩ := ih rc errs2 (fun q hq => h q (by simp [hq]))
          exact ⟨r, by simp [tryProviders, hv, hr]⟩

theorem tryAttempts_ok_inl {p : Provider} :
    ∀ {n idx : Nat} {errs : List String} {r : TransResult},
    tryAttempts p n idx errs = Except.ok (.inl r) →
    ∃ i t, p.translate i = PyOutcome.ok t ∧ r = ⟨t, some p.name, none⟩ := by
  intro n
  induction n with
  | zero => intro idx errs r h; simp [tryAttempts] at h
  | succ n ih =>
      intro idx errs r h
      cases htr : p.translate idx with
      | ok t =>
          simp [tryAttempts, htr] at h
          exact ⟨idx, t, htr, h.symm⟩
      | err m =>
          simp [tryAttempts, htr] at h
          exact ih h
      | exn m => simp [tryAttempts, htr] at h

theorem tryProviders_ok_shape :
    ∀ {ps : List Provider} {rc : Nat} {errs : List String} {r : TransResult},
    tryProviders ps rc errs = Except.ok r →
    (∃ p, p ∈ ps ∧ ∃ i t, p.translate i = PyOutcome.ok t ∧ r = ⟨t, some p.name, none⟩) ∨
    (r.translation = "" ∧ r.provider = none ∧ ∃ m, r.error = some m) := by
  intro ps
  induction ps with
  | nil =>
      intro rc errs r h
      simp [tryProviders] at h
      exact Or.inr (by simp [← h])
  | cons p ps ih =>
      intro rc errs r h
      simp only [tryProviders] at h
      cases hta : tryAttempts p (rc + 1) 0 errs with
      | error m => rw [hta] at h; simp at h
      | ok v =>
          rw [hta] at h
          cases v with
          | inl r2 =>
              simp at h
              obtain ⟨i, t, hit, hr⟩ := tryAttempts_ok_inl hta
              exact Or.inl ⟨p, by simp, i, t, hit, by rw [← h, hr]⟩
          | inr errs2 =>
              simp at h
              rcases ih h with ⟨q, hq, rest⟩ | hr
              · exact Or.inl ⟨q, by simp [hq], rest⟩
              · exact Or.inr hr

theorem service_translate_ok_shape {ps : List Provider} {rc : Nat} {r : TransResult}
    (h : service_translate ps rc = Except.ok r) :
    (∃ p, p ∈ ps ∧ ∃ i t, p.translate i = PyOutcome.ok t ∧ r = ⟨t, some p.name, none⟩) ∨
    (r.translation = "" ∧ r.provider = none ∧ ∃ m, r.error = some m) := by
  by_cases hps : ps.isEmpty
  · simp [service_translate, hps] at h
    exact Or.inr (by simp [← h])
  · simp [service_translate, hps] at h
    exact tryProviders_ok_shape h

/-- C9: the cache key is the plain pipe-joined concatenation and is not
injective: the request (text `"x|y"`, source omitted) and the request
(text `"x"`, source `"y|auto"`) share a key, and a lookup for the first
returns the result stored for the second. -/
theorem c9_key_collision :
    generate_key "x|y" "es" none "default" = generate_key "x" "es" (some "y|auto") "default" ∧
    ("x|y" ≠ "x" ∨ (none : Option String) ≠ some "y|auto") ∧
    (get_translation
        (cache_translation ⟨[], 100, 3600⟩ 0 "x" ⟨"T", some "deepl", none⟩ "es"
          (some "y|auto") "default")
        0 "x|y" "es" none "default").1 = some ⟨"T", some "deepl", none⟩ := by
  refine ⟨rfl, Or.inl (by decide), by decide⟩

/-- C7 counterexample: a provider whose `translate` raises a
non-`TranslationError` exception makes `TranslatorService.translate`
propagate that exception instead of handling it like a
`TranslationError`. -/
theorem c7_counterexample :
    service_translate [⟨"bad", fun _ => PyOutcome.exn "boom"⟩] 0 = Except.error "boom" := rfl

/-- C7 amended: the orchestrator catches only `TranslationError`; whenever
no adapter raises anything else, the loop terminates with a well-formed
result dictionary, but a non-`TranslationError` exception propagates. -/
theorem c7_no_propagation_if_only_translation_errors (providers : List Provider) (rc : Nat)
    (h : ∀ p ∈ providers, ∀ i m, p.translate i ≠ PyOutcome.exn m) :
    ∃ r, service_translate providers rc = Except.ok r := by
  by_cases hps : providers.isEmpty
  · exact ⟨⟨"", none, some "No translation providers available"⟩,
      by simp [service_translate, hps]⟩
  · obtain ⟨r, hr⟩ := tryProviders_no_exn providers rc [] h
    exact ⟨r, by simp [service_translate, hps, hr]⟩

/-- C7 witness. -/
theorem c7_witness :
    ∃ r, service_translate [⟨"deepl", fun _ => PyOutcome.err "x"⟩] 2 = Except.ok r :=
  c7_no_propagation_if_only_translation_errors [⟨"deepl", fun _ => PyOutcome.err "x"⟩] 2
    (by rintro p hp i m; simp at hp; subst hp; simp)

/-- C3 counterexample: if the backend success response carries an empty
string, each adapter returns the empty string normally instead of raising
`TranslationError`. -/
theorem c3_counterexample :
    (DeepLTranslator.init "k" true).translate (fun _ => Except.ok "") "hi" "es" none "default" =
      Except.ok "" ∧
    (GeminiTranslator.mk "k").translate (fun _ => Except.ok "") "hi" "es" none "default" =
      Except.ok "" ∧
    (OpenAITranslator.init "k").translate (fun _ _ => Except.ok "") "hi" "es" none "default" =
      Except.ok "" := ⟨rfl, rfl, rfl⟩

/-- C3 amended: an available adapter passes the backend success payload
through unchanged (after `.strip()` for the generative backends) with no
empty-string check, so an empty success response is returned, not raised. -/
theorem c3_passthrough (dk okk : String) (ctor_ok : Bool) (gt : GeminiTranslator) (s : String)
    (db : DeepLReq → Except String String) (gb : String → Except String String)
    (ob : String → String → Except String String)
    (text target_lang : String) (source_lang : Option String) (tone : String)
    (hdav : (DeepLTranslator.init dk ctor_ok).is_available = true)
    (hgav : gt.is_available = true)
    (hoav : (OpenAITranslator.init okk).is_available = true)
    (hdb : ∀ req, db req = Except.ok s) (hgb : ∀ p, gb p = Except.ok s)
    (hob : ∀ sp up, ob sp up = Except.ok s) :
    (DeepLTranslator.init dk ctor_ok).translate db text target_lang source_lang tone =
      Except.ok s ∧
    gt.translate gb text target_lang source_lang tone = Except.ok (py_strip s) ∧
    (OpenAITranslator.init okk).translate ob text target_lang source_lang tone =
      Except.ok (py_strip s) := by
  refine ⟨?_, ?_, ?_⟩
  · simp [DeepLTranslator.translate, hdav, hdb]
  · simp [GeminiTranslator.translate, hgav, hgb]
  · simp [OpenAITranslator.translate, hoav, hob]

/-- C3 witness. -/
theorem c3_witness :
    (DeepLTranslator.init "k" true).translate (fun _ => Except.ok " hola ") "hi" "es" none
      "default" = Except.ok " hola " ∧
    (GeminiTranslator.mk "k").translate (fun _ => Except.ok " hola ") "hi" "es" none "default" =
      Except.ok (py_strip " hola ") ∧
    (OpenAITranslator.init "k").translate (fun _ _ => Except.ok " hola ") "hi" "es" none
      "default" = Except.ok (py_strip " hola ") :=
  c3_passthrough "k" "k" true ⟨"k"⟩ " hola " _ _ _ "hi" "es" none "default" rfl rfl rfl
    (fun _ => rfl) (fun _ => rfl) (fun _ _ => rfl)

theorem count_keys_eq_one {dk gk okk : String} (h : count_keys dk gk okk = 1) :
    (dk ≠ "" ∧ gk = "" ∧ okk = "") ∨ (dk = "" ∧ gk ≠ "" ∧ okk = "") ∨
    (dk = "" ∧ gk = "" ∧ okk ≠ "") := by
  by_cases h1 : dk = "" <;> by_cases h2 : gk = "" <;> by_cases h3 : okk = "" <;>
    simp [count_keys, h1, h2, h3] at h ⊢

/-- C1 amended: with exactly one credential, the fast path and the
orchestrator restricted to that adapter with `retry_count = 0` agree on
the translation and provider fields and on success versus failure, but
not on the error text itself. -/
theorem c1_fast_path_fields (B : Backends) (text target_lang : String)
    (source_lang : Option String) (tone : String) (dk gk okk : String)
    (hone : count_keys dk gk okk = 1) :
    ∃ r, service_translate (setup_providers B dk gk okk text target_lang source_lang tone) 0 =
        Except.ok r ∧
      r.translation =
        (single_provider_path B text target_lang source_lang tone dk gk okk).translation ∧
      r.provider =
        (single_provider_path B text target_lang source_lang tone dk gk okk).provider ∧
      (r.error = none ↔
        (single_provider_path B text target_lang source_lang tone dk gk okk).error = none) := by
  rcases count_keys_eq_one hone with ⟨h1, h2, h3⟩ | ⟨h1, h2, h3⟩ | ⟨h1, h2, h3⟩
  · subst h2; subst h3
    have h1' : (dk != "") = true := bne_iff_ne.mpr h1
    cases hD : (DeepLTranslator.init dk B.deepl_ctor_ok).translate (B.deepl 0)
        text target_lang source_lang tone with
    | ok t =>
        refine ⟨⟨t, some "deepl", none⟩, ?_, ?_, ?_, ?_⟩ <;>
          simp [service_translate, setup_providers, h1', tryProviders, tryAttempts,
            toPyOutcome, hD, single_provider_path]
    | error m =>
        refine ⟨⟨"", none, some ("All translation providers failed: " ++
          String.intercalate "; " [attemptDiag "deepl" 0 m])⟩, ?_, ?_, ?_, ?_⟩ <;>
          simp [service_translate, setup_providers, h1', tryProviders, tryAttempts,
            toPyOutcome, hD, single_provider_path]
  · subst h1; subst h3
    have h2' : (gk != "") = true := bne_iff_ne.mpr h2
    cases hG : (GeminiTranslator.mk gk).translate (B.gemini 0)
        text target_lang source_lang tone with
    | ok t =>
        refine ⟨⟨t, some "gemini", none⟩, ?_, ?_, ?_, ?_⟩ <;>
          simp [service_translate, setup_providers, h2', tryProviders, tryAttempts,
            toPyOutcome, hG, single_provider_path]
    | error m =>
        refine ⟨⟨"", none, some ("All translation providers failed: " ++
          String.intercalate "; " [attemptDiag "gemini" 0 m])⟩, ?_, ?_, ?_, ?_⟩ <;>
          simp [service_translate, setup_providers, h2', tryProviders, tryAttempts,
            toPyOutcome, hG, single_provider_path]
  · subst h1; subst h2
    have h3' : (okk != "") = true := bne_iff_ne.mpr h3
    cases hO : (OpenAITranslator.init okk).translate (B.openai 0)
        text target_lang source_lang tone with
    | ok t =>
        refine ⟨⟨t, some "openai", none⟩, ?_, ?_, ?_, ?_⟩ <;>
          simp [service_translate, setup_providers, h3', tryProviders, tryAttempts,
            toPyOutcome, hO, single_provider_path]
    | error m =>
        refine ⟨⟨"", none, some ("All translation providers failed: " ++
          String.intercalate "; " [attemptDiag "openai" 0 m])⟩, ?_, ?_, ?_, ?_⟩ <;>
          simp [service_translate, setup_providers, h3', tryProviders, tryAttempts,
            toPyOutcome, hO, single_provider_path]

/-- C1 witness. -/
theorem c1_witness :
    ∃ r, service_translate
        (setup_providers ⟨fun _ _ => Except.ok "Hola", true, fun _ _ => Except.error "g",
          fun _ _ _ => Except.error "o"⟩ "k" "" "" "hi" "es" none "default") 0 =
        Except.ok r ∧
      r.translation = (single_provider_path ⟨fun _ _ => Except.ok "Hola", true,
        fun _ _ => Except.error "g", fun _ _ _ => Except.error "o"⟩
        "hi" "es" none "default" "k" "" "").translation ∧
      r.provider = (single_provider_path ⟨fun _ _ => Except.ok "Hola", true,
        fun _ _ => Except.error "g", fun _ _ _ => Except.error "o"⟩
        "hi" "es" none "default" "k" "" "").provider ∧
      (r.error = none ↔ (single_provider_path ⟨fun _ _ => Except.ok "Hola", true,
        fun _ _ => Except.error "g", fun _ _ _ => Except.error "o"⟩
        "hi" "es" none "default" "k" "" "").error = none) :=
  c1_fast_path_fields ⟨fun _ _ => Except.ok "Hola", true, fun _ _ => Except.error "g",
    fun _ _ _ => Except.error "o"⟩ "hi" "es" none "default" "k" "" "" (by decide)

/-- C1 counterexample: with a single DeepL credential and a failing
backend, the fast path and the single-adapter orchestrator with
`retry_count = 0` return different error strings, so the results are not
identical. -/
theorem c1_counterexample :
    single_provider_path ⟨fun _ _ => Except.error "boom", true, fun _ _ => Except.error "g",
        fun _ _ _ => Except.error "o"⟩ "hi" "es" none "default" "k" "" "" =
      ⟨"", none, some "DeepL translation failed: DeepL translation failed: boom"⟩ ∧
    service_translate (setup_providers ⟨fun _ _ => Except.error "boom", true,
        fun _ _ => Except.error "g", fun _ _ _ => Except.error "o"⟩ "k" "" ""
        "hi" "es" none "default") 0 =
      Except.ok ⟨"", none,
        some "All translation providers failed: deepl (attempt 1): DeepL translation failed: boom"⟩ ∧
    (⟨"", none, some "DeepL translation failed: DeepL translation failed: boom"⟩ : TransResult) ≠
      ⟨"", none,
        some "All translation providers failed: deepl (attempt 1): DeepL translation failed: boom"⟩ := by
  refine ⟨rfl, rfl, by decide⟩

/-- The diagnostics the orchestrator records when every provider fails
every attempt: per provider in order, attempts `1` to `retry_count + 1`. -/
def all_fail_diags (ps : List Provider) (rc : Nat) (msg : Provider → Nat → String) :
    List String :=
  ps.flatMap (fun p => (List.range (rc + 1)).map (fun a => attemptDiag p.name a (msg p a)))

theorem tryAttempts_all_fail (p : Provider) (msg : Nat → String)
    (h : ∀ i, p.translate i = PyOutcome.err (msg i)) :
    ∀ (n idx : Nat) (errs : List String),
    tryAttempts p n idx errs =
      Except.ok (.inr (errs ++ (List.range' idx n).map (fun a => attemptDiag p.name a (msg a)))) := by
  intro n
  induction n with
  | zero => intro idx errs; simp [tryAttempts]
  | succ n ih =>
      intro idx errs
      rw [List.range'_succ]
      simp only [tryAttempts, h idx, ih (idx + 1) (errs ++ [attemptDiag p.name idx (msg idx)]),
        List.map_cons, List.append_assoc, List.singleton_append]

theorem tryProviders_all_fail (rc : Nat) (msg : Provider → Nat → String) :
    ∀ (ps : List Provider) (errs : List String),
    (∀ p ∈ ps, ∀ i, p.translate i = PyOutcome.err (msg p i)) →
    tryProviders ps rc errs =
      Except.ok ⟨"", none, some ("All translation providers failed: " ++
        String.intercalate "; " (errs ++ all_fail_diags ps rc msg))⟩ := by
  intro ps
  induction ps with
  | nil => intro errs _; simp [tryProviders, all_fail_diags]
  | cons p ps ih =>
      intro errs h
      have hp := h p (by simp)
      rw [tryProviders, tryAttempts_all_fail p (msg p) hp (rc + 1) 0 errs]
      refine Eq.trans (ih (errs ++ (List.range' 0 (rc + 1)).map
        (fun a => attemptDiag p.name a (msg p a))) (fun q hq => h q (by simp [hq]))) ?_
      simp [all_fail_diags, List.range_eq_range', List.append_assoc]

/-- C4: when every adapter fails every attempt with a `TranslationError`,
the orchestrator records `retry_count + 1` labeled diagnostics per
adapter, in priority then attempt order, and returns the aggregate
failure result with empty translation and absent provider. -/
theorem c4_all_fail_aggregation (ps : List Provider) (rc : Nat) (msg : Provider → Nat → String)
    (hne : ps ≠ []) (h : ∀ p ∈ ps, ∀ i, p.translate i = PyOutcome.err (msg p i)) :
    service_translate ps rc =
      Except.ok ⟨"", none, some ("All translation providers failed: " ++
        String.intercalate "; " (all_fail_diags ps rc msg))⟩ ∧
    (all_fail_diags ps rc msg).length = ps.length * (rc + 1) := by
  constructor
  · have hne' : ps.isEmpty = false := by simp [List.isEmpty_iff, hne]
    rw [service_translate, hne']
    simpa using tryProviders_all_fail rc msg ps [] h
  · clear h hne
    induction ps with
    | nil => simp [all_fail_diags]
    | cons p ps ih2 =>
        simp only [all_fail_diags, List.flatMap_cons, List.length_append, List.length_map,
          List.length_range, List.length_cons, Nat.succ_mul] at ih2 ⊢
        omega

/-- C4 witness. -/
theorem c4_witness :
    service_translate [⟨"deepl", fun _ => PyOutcome.err "d"⟩,
        ⟨"gemini", fun _ => PyOutcome.err "g"⟩] 1 =
      Except.ok ⟨"", none, some ("All translation providers failed: " ++
        String.intercalate "; " (all_fail_diags [⟨"deepl", fun _ => PyOutcome.err "d"⟩,
          ⟨"gemini", fun _ => PyOutcome.err "g"⟩] 1
          (fun p _ => if p.name = "deepl" then "d" else "g")))⟩ ∧
    (all_fail_diags [⟨"deepl", fun _ => PyOutcome.err "d"⟩,
      ⟨"gemini", fun _ => PyOutcome.err "g"⟩] 1
      (fun p _ => if p.name = "deepl" then "d" else "g")).length = 2 * (1 + 1) :=
  c4_all_fail_aggregation _ 1 _ (by simp)
    (by
      rintro p hp i
      simp only [List.mem_cons, List.mem_singleton] at hp
      rcases hp with rfl | rfl | h
      · simp
      · simp
      · simp at h)

theorem string_append_cancel_left {a b c : String} (h : a ++ b = a ++ c) : b = c := by
  have H := congrArg String.data h
  simp only [String.data_append] at H
  exact String.ext (List.append_cancel_left H)

theorem string_append_cancel_right {a b c : String} (h : a ++ c = b ++ c) : a = b := by
  have H := congrArg String.data h
  simp only [String.data_append] at H
  exact String.ext (List.append_cancel_right H)

/-- An explicit source-language code that is neither empty nor the literal
sentinel `"auto"` never produces the same cache key as an omitted source
language. -/
theorem generate_key_some_ne_none {text target_lang tone s : String}
    (hs : s ≠ "") (hsa : s ≠ "auto") :
    generate_key text target_lang (some s) tone ≠ generate_key text target_lang none tone := by
  simp only [generate_key, if_neg hs]
  intro h
  have h1 := string_append_cancel_right h
  have h2 := string_append_cancel_right h1
  have h3 := string_append_cancel_right h2
  have h4 := string_append_cancel_right h3
  exact hsa (string_append_cancel_left h4)

/-- C5: a lookup with the source language omitted hits the entry stored
with it omitted, and never hits an entry stored with an explicit source
language code (any non-empty code other than the sentinel `"auto"`
itself), all other fields equal. -/
theorem c5_source_normalization (text target_lang tone s : String) (res : TransResult)
    (M ttl now now2 : Nat) (hM : 1 ≤ M) (hres : res.translation ≠ "") (herr : res.error = none)
    (hfresh : now2 - now < ttl) (hs : s ≠ "") (hsa : s ≠ "auto") :
    (get_translation (cache_translation ⟨[], M, ttl⟩ now text res target_lang none tone)
      now2 text target_lang none tone).1 = some res ∧
    (get_translation (cache_translation ⟨[], M, ttl⟩ now text res target_lang (some s) tone)
      now2 text target_lang none tone).1 = none := by
  have hguard : ¬(res.translation = "" ∨ res.error.isSome) := by simp [hres, herr]
  have hsize : ¬(1 > M) := by omega
  constructor
  · simp [cache_translation, hguard, dictInsert, hsize, get_translation, get_translation_key,
      evict_oldest, hfresh]
  · simp [cache_translation, hguard, dictInsert, hsize, get_translation, get_translation_key,
      evict_oldest, generate_key_some_ne_none hs hsa]

/-- C5 witness. -/
theorem c5_witness :
    (get_translation (cache_translation ⟨[], 100, 3600⟩ 5 "hola" ⟨"X", some "deepl", none⟩
      "es" none "default") 10 "hola" "es" none "default").1 = some ⟨"X", some "deepl", none⟩ ∧
    (get_translation (cache_translation ⟨[], 100, 3600⟩ 5 "hola" ⟨"X", some "deepl", none⟩
      "es" (some "en") "default") 10 "hola" "es" none "default").1 = none :=
  c5_source_normalization "hola" "es" "default" "en" ⟨"X", some "deepl", none⟩ 100 3600 5 10
    (by decide) (by decide) (by decide) (by decide) (by decide) (by decide)

/-- C8 counterexample: `smart_translate` with empty text still invokes the
adapter: the result depends on the backend's answer to the empty-text
request (here success `"Hola"` versus failure `"boom"`), which both a
short-circuit and an up-front rejection would make impossible. -/
theorem c8_counterexample :
    smart_translate ⟨fun _ _ => Except.ok "Hola", true, fun _ _ => Except.error "g",
        fun _ _ _ => Except.error "o"⟩ ⟨[], 100, 3600⟩ 0 "" "es" none "default"
        "k" "" "" false 0 ≠
      smart_translate ⟨fun _ _ => Except.error "boom", true, fun _ _ => Except.error "g",
        fun _ _ _ => Except.error "o"⟩ ⟨[], 100, 3600⟩ 0 "" "es" none "default"
        "k" "" "" false 0 := by
  have h1 : smart_translate ⟨fun _ _ => Except.ok "Hola", true, fun _ _ => Except.error "g",
      fun _ _ _ => Except.error "o"⟩ ⟨[], 100, 3600⟩ 0 "" "es" none "default"
      "k" "" "" false 0 =
      Except.ok (⟨"Hola", some "deepl", none⟩, ⟨[], 100, 3600⟩) := rfl
  have h2 : smart_translate ⟨fun _ _ => Except.error "boom", true, fun _ _ => Except.error "g",
      fun _ _ _ => Except.error "o"⟩ ⟨[], 100, 3600⟩ 0 "" "es" none "default"
      "k" "" "" false 0 =
      Except.ok (⟨"", none, some "DeepL translation failed: DeepL translation failed: boom"⟩,
        ⟨[], 100, 3600⟩) := rfl
  intro h
  rw [h1, h2] at h
  simp at h

/-- C8 amended: `smart_translate` applies no empty-text guard at all; with
a single credential and caching off, a call with empty text is handed to
the adapter through the fast path exactly like any other text, and its
result is the adapter's result. -/
theorem c8_no_empty_guard (B : Backends) (c : TranslationCache) (now : Nat)
    (target_lang : String) (source_lang : Option String) (tone : String) (dk : String)
    (rc : Nat) (hdk : dk ≠ "") :
    smart_translate B c now "" target_lang source_lang tone dk "" "" false rc =
      Except.ok (single_provider_path B "" target_lang source_lang tone dk "" "", c) := by
  have h1' : (dk != "") = true := bne_iff_ne.mpr hdk
  simp [smart_translate, count_keys, h1']

/-- C8 witness. -/
theorem c8_witness :
    smart_translate ⟨fun _ _ => Except.ok "Hola", true, fun _ _ => Except.error "g",
        fun _ _ _ => Except.error "o"⟩ ⟨[], 100, 3600⟩ 0 "" "es" none "default"
        "k" "" "" false 1 =
      Except.ok (single_provider_path ⟨fun _ _ => Except.ok "Hola", true,
        fun _ _ => Except.error "g", fun _ _ _ => Except.error "o"⟩
        "" "es" none "default" "k" "" "", ⟨[], 100, 3600⟩) :=
  c8_no_empty_guard ⟨fun _ _ => Except.ok "Hola", true, fun _ _ => Except.error "g",
    fun _ _ _ => Except.error "o"⟩ ⟨[], 100, 3600⟩ 0 "es" none "default" "k" 1 (by decide)

theorem deepl_translate_ok_origin {tr : DeepLTranslator}
    {backend : DeepLReq → Except String String} {text target_lang : String}
    {source_lang : Option String} {tone s : String}
    (h : tr.translate backend text target_lang source_lang tone = Except.ok s) :
    backend (deepl_request text target_lang source_lang tone) = Except.ok s := by
  rw [DeepLTranslator.translate] at h
  split at h
  · exact absurd h (by simp)
  · cases hb : backend (deepl_request text target_lang source_lang tone) with
    | ok s0 =>
        rw [hb] at h
        simp at h
        rw [h]
    | error m => rw [hb] at h; simp at h

theorem gemini_translate_ok_origin {tr : GeminiTranslator}
    {backend : String → Except String String} {text target_lang : String}
    {source_lang : Option String} {tone s : String}
    (h : tr.translate backend text target_lang source_lang tone = Except.ok s) :
    ∃ s0, backend (gemini_prompt text target_lang source_lang tone) = Except.ok s0 ∧
      s = py_strip s0 := by
  rw [GeminiTranslator.translate] at h
  split at h
  · exact absurd h (by simp)
  · cases hb : backend (gemini_prompt text target_lang source_lang tone) with
    | ok s0 =>
        rw [hb] at h
        simp at h
        exact ⟨s0, rfl, h.symm⟩
    | error m => rw [hb] at h; simp at h

theorem openai_translate_ok_origin {tr : OpenAITranslator}
    {backend : String → String → Except String String} {text target_lang : String}
    {source_lang : Option String} {tone s : String}
    (h : tr.translate backend text target_lang source_lang tone = Except.ok s) :
    ∃ s0, backend openai_system_prompt (openai_user_prompt text target_lang source_lang tone) =
      Except.ok s0 ∧ s = py_strip s0 := by
  rw [OpenAITranslator.translate] at h
  split at h
  · exact absurd h (by simp)
  · cases hb : backend openai_system_prompt
        (openai_user_prompt text target_lang source_lang tone) with
    | ok s0 =>
        rw [hb] at h
        simp at h
        exact ⟨s0, rfl, h.symm⟩
    | error m => rw [hb] at h; simp at h

/-- A translation string that some backend produced as a success payload
(after the adapter's `.strip()` where applicable). -/
def backend_success (B : Backends) (t : String) : Prop :=
  (∃ i req, B.deepl i req = Except.ok t) ∨
  (∃ i p s0, B.gemini i p = Except.ok s0 ∧ t = py_strip s0) ∨
  (∃ i sp up s0, B.openai i sp up = Except.ok s0 ∧ t = py_strip s0)

theorem setup_providers_translate_ok {B : Backends} {dk gk okk text target_lang : String}
    {source_lang : Option String} {tone : String} {p : Provider}
    (hp : p ∈ setup_providers B dk gk okk text target_lang source_lang tone)
    {i : Nat} {t : String} (ht : p.translate i = PyOutcome.ok t) :
    backend_success B t := by
  unfold setup_providers at hp
  rw [List.mem_append, List.mem_append] at hp
  rcases hp with (hp | hp) | hp
  · by_cases hdk : (dk != "") = true
    · rw [if_pos hdk] at hp
      simp only [List.mem_singleton] at hp
      subst hp
      have := toPyOutcome_eq_ok.mp ht
      exact Or.inl ⟨i, _, deepl_translate_ok_origin this⟩
    · rw [if_neg hdk] at hp; simp at hp
  · by_cases hgk : (gk != "") = true
    · rw [if_pos hgk] at hp
      simp only [List.mem_singleton] at hp
      subst hp
      have := toPyOutcome_eq_ok.mp ht
      obtain ⟨s0, hb, hs⟩ := gemini_translate_ok_origin this
      exact Or.inr (Or.inl ⟨i, _, s0, hb, hs⟩)
    · rw [if_neg hgk] at hp; simp at hp
  · by_cases hok : (okk != "") = true
    · rw [if_pos hok] at hp
      simp only [List.mem_singleton] at hp
      subst hp
      have := toPyOutcome_eq_ok.mp ht
      obtain ⟨s0, hb, hs⟩ := openai_translate_ok_origin this
      exact Or.inr (Or.inr ⟨i, _, _, s0, hb, hs⟩)
    · rw [if_neg hok] at hp; simp at hp

theorem single_provider_path_shape (B : Backends) (text target_lang : String)
    (source_lang : Option String) (tone dk gk okk : String) :
    (∃ t prov, single_provider_path B text target_lang source_lang tone dk gk okk =
        ⟨t, some prov, none⟩ ∧ backend_success B t) ∨
    ((single_provider_path B text target_lang source_lang tone dk gk okk).translation = "" ∧
     (single_provider_path B text target_lang source_lang tone dk gk okk).provider = none ∧
     ∃ m, (single_provider_path B text target_lang source_lang tone dk gk okk).error = some m) := by
  unfold single_provider_path
  by_cases h1 : (dk != "") = true
  · rw [if_pos h1]
    cases hb : (DeepLTranslator.init dk B.deepl_ctor_ok).translate (B.deepl 0)
        text target_lang source_lang tone with
    | ok t =>
        exact Or.inl ⟨t, "deepl", rfl, Or.inl ⟨0, _, deepl_translate_ok_origin hb⟩⟩
    | error m => exact Or.inr (by simp)
  · rw [if_neg h1]
    by_cases h2 : (gk != "") = true
    · rw [if_pos h2]
      cases hb : (GeminiTranslator.mk gk).translate (B.gemini 0)
          text target_lang source_lang tone with
      | ok t =>
          obtain ⟨s0, hb0, hs⟩ := gemini_translate_ok_origin hb
          exact Or.inl ⟨t, "gemini", rfl, Or.inr (Or.inl ⟨0, _, s0, hb0, hs⟩)⟩
      | error m => exact Or.inr (by simp)
    · rw [if_neg h2]
      by_cases h3 : (okk != "") = true
      · rw [if_pos h3]
        cases hb : (OpenAITranslator.init okk).translate (B.openai 0)
            text target_lang source_lang tone with
        | ok t =>
            obtain ⟨s0, hb0, hs⟩ := openai_translate_ok_origin hb
            exact Or.inl ⟨t, "openai", rfl, Or.inr (Or.inr ⟨0, _, _, s0, hb0, hs⟩)⟩
        | error m => exact Or.inr (by simp)
      · rw [if_neg h3]
        exact Or.inr (by simp)

theorem get_translation_key_fst_some {c : TranslationCache} {now : Nat} {key : String}
    {r : TransResult} (h : (get_translation_key c now key).1 = some r) :
    ∃ e ∈ c.cache, e.2.result = r := by
  unfold get_translation_key at h
  cases hf : c.cache.find? (fun p => p.1 == key) with
  | none => rw [hf] at h; simp at h
  | some e =>
      rw [hf] at h
      have h' : (if now - e.2.timestamp < c.ttl then (some e.2.result, c)
          else ((none : Option TransResult),
            { c with cache := c.cache.filter (fun p => !(p.1 == key)) })).1 = some r := h
      by_cases hfr : now - e.2.timestamp < c.ttl
      · rw [if_pos hfr] at h'
        exact ⟨e, List.mem_of_find?_eq_some hf, by simpa using h'⟩
      · rw [if_neg hfr] at h'
        simp at h'

theorem get_translation_fst_some {c : TranslationCache} {now : Nat}
    {text target_lang : String} {source_lang : Option String} {tone : String} {r : TransResult}
    (h : (get_translation c now text target_lang source_lang tone).1 = some r) :
    ∃ e ∈ c.cache, e.2.result = r :=
  get_translation_key_fst_some h

theorem smart_translate_ok_shape {B : Backends} {c : TranslationCache} {now : Nat}
    {text target_lang : String} {source_lang : Option String} {tone dk gk okk : String}
    {uc : Bool} {rc : Nat} {r : TransResult} {c2 : TranslationCache}
    (h : smart_translate B c now text target_lang source_lang tone dk gk okk uc rc =
      Except.ok (r, c2)) :
    (∃ e ∈ c.cache, e.2.result = r) ∨
    (∃ t prov, r = ⟨t, some prov, none⟩ ∧ backend_success B t) ∨
    (r.translation = "" ∧ r.provider = none ∧ ∃ m, r.error = some m) := by
  unfold smart_translate at h
  by_cases huc : uc = true
  · rw [huc] at h
    simp only [if_true] at h
    cases hg : (get_translation c now text target_lang source_lang tone).1 with
    | some r0 =>
        rw [hg] at h
        simp at h
        exact Or.inl ((get_translation_fst_some hg).imp (fun e he => ⟨he.1, he.2.trans h.1⟩))
    | none =>
        rw [hg] at h
        by_cases hck : count_keys dk gk okk = 1
        · rw [if_pos hck] at h
          simp at h
          rcases single_provider_path_shape B text target_lang source_lang tone dk gk okk with
            ⟨t, prov, heq, hbs⟩ | hfail
          · exact Or.inr (Or.inl ⟨t, prov, by rw [← h.1, heq], hbs⟩)
          · rw [h.1] at hfail
            exact Or.inr (Or.inr hfail)
        · rw [if_neg hck] at h
          cases hse : service_translate
              (setup_providers B dk gk okk text target_lang source_lang tone) rc with
          | error m => rw [hse] at h; simp at h
          | ok result =>
              rw [hse] at h
              simp at h
              rcases service_translate_ok_shape hse with ⟨p, hps, i, t, hit, hres⟩ | hfail
              · exact Or.inr (Or.inl ⟨t, p.name, by rw [← h.1, hres],
                  setup_providers_translate_ok hps hit⟩)
              · rw [h.1] at hfail
                exact Or.inr (Or.inr hfail)
  · have huc' : uc = false := by cases uc <;> simp_all
    rw [huc'] at h
    simp only [if_false] at h
    by_cases hck : count_keys dk gk okk = 1
    · rw [if_pos hck] at h
      simp at h
      rcases single_provider_path_shape B text target_lang source_lang tone dk gk okk with
        ⟨t, prov, heq, hbs⟩ | hfail
      · exact Or.inr (Or.inl ⟨t, prov, by rw [← h.1, heq], hbs⟩)
      · rw [h.1] at hfail
        exact Or.inr (Or.inr hfail)
    · rw [if_neg hck] at h
      cases hse : service_translate
          (setup_providers B dk gk okk text target_lang source_lang tone) rc with
      | error m => rw [hse] at h; simp at h
      | ok result =>
          rw [hse] at h
          simp at h
          rcases service_translate_ok_shape hse with ⟨p, hps, i, t, hit, hres⟩ | hfail
          · exact Or.inr (Or.inl ⟨t, p.name, by rw [← h.1, hres],
              setup_providers_translate_ok hps hit⟩)
          · rw [h.1] at hfail
            exact Or.inr (Or.inr hfail)

/-- C10: in every result returned by `TranslatorService.translate` or by
`smart_translate` (cache hits included, for a cache whose entries are
stored successes), the provider field is present exactly when the error
field is absent. -/
theorem c10_provider_iff_no_error :
    (∀ (ps : List Provider) (rc : Nat) (r : TransResult),
      service_translate ps rc = Except.ok r → (r.provider.isSome ↔ r.error = none)) ∧
    (∀ (B : Backends) (c : TranslationCache) (now : Nat) (text target_lang : String)
      (source_lang : Option String) (tone dk gk okk : String) (uc : Bool) (rc : Nat)
      (r : TransResult) (c2 : TranslationCache),
      (∀ e ∈ c.cache, e.2.result.provider.isSome ∧ e.2.result.error = none) →
      smart_translate B c now text target_lang source_lang tone dk gk okk uc rc =
        Except.ok (r, c2) →
      (r.provider.isSome ↔ r.error = none)) := by
  constructor
  · intro ps rc r h
    rcases service_translate_ok_shape h with ⟨p, _, i, t, _, hr⟩ | ⟨_, hp, m, he⟩
    · rw [hr]; simp
    · simp [hp, he]
  · intro B c now text tl sl tone dk gk okk uc rc r c2 hc h
    rcases smart_translate_ok_shape h with ⟨e, he, hr⟩ | ⟨t, prov, hr, _⟩ | ⟨_, hp, m, he⟩
    · have := hc e he
      rw [← hr]
      simp [this.1, this.2]
    · rw [hr]; simp
    · simp [hp, he]

/-- C10 witness. -/
theorem c10_witness :
    ((⟨"", none, some "No translation providers available"⟩ : TransResult).provider.isSome ↔
      (⟨"", none, some "No translation providers available"⟩ : TransResult).error = none) :=
  c10_provider_iff_no_error.1 [] 0 ⟨"", none, some "No translation providers available"⟩ rfl

/-- C2 counterexample: a backend success carrying the empty string makes
`smart_translate` return a completed result whose translation is empty
while the error field is also absent — neither branch of the claimed
exactly-one invariant holds. -/
theorem c2_counterexample :
    smart_translate ⟨fun _ _ => Except.ok "", true, fun _ _ => Except.error "g",
        fun _ _ _ => Except.error "o"⟩ ⟨[], 100, 3600⟩ 0 "hello" "es" none "default"
        "k" "" "" false 0 =
      Except.ok (⟨"", some "deepl", none⟩, ⟨[], 100, 3600⟩) ∧
    ¬ ((("" : String) ≠ "" ∧ (none : Option String) = none) ∨
       (("" : String) = "" ∧ (none : Option String).isSome)) :=
  ⟨rfl, by simp⟩

/-- C2 amended: for a completed `smart_translate` call, exactly one of
{non-empty translation, present error} holds, provided no backend success
payload is empty (after stripping) and every cache entry is a stored
success; without that proviso only the "never both" half survives, as the
counterexample shows. -/
theorem c2_exactly_one (B : Backends) (c : TranslationCache) (now : Nat)
    (text target_lang : String) (source_lang : Option String) (tone dk gk okk : String)
    (uc : Bool) (rc : Nat) (r : TransResult) (c2 : TranslationCache)
    (hd : ∀ i req s, B.deepl i req = Except.ok s → s ≠ "")
    (hg : ∀ i p s, B.gemini i p = Except.ok s → py_strip s ≠ "")
    (ho : ∀ i sp up s, B.openai i sp up = Except.ok s → py_strip s ≠ "")
    (hc : ∀ e ∈ c.cache, e.2.result.translation ≠ "" ∧ e.2.result.error = none)
    (h : smart_translate B c now text target_lang source_lang tone dk gk okk uc rc =
      Except.ok (r, c2)) :
    (r.translation ≠ "" ∧ r.error = none) ∨ (r.translation = "" ∧ r.error.isSome) := by
  rcases smart_translate_ok_shape h with ⟨e, he, hr⟩ | ⟨t, prov, hr, hbs⟩ | ⟨ht, _, m, he⟩
  · rw [← hr]
    exact Or.inl (hc e he)
  · rw [hr]
    refine Or.inl ⟨?_, rfl⟩
    rcases hbs with ⟨i, req, hb⟩ | ⟨i, p, s0, hb, hs⟩ | ⟨i, sp, up, s0, hb, hs⟩
    · exact hd i req t hb
    · rw [hs]; exact hg i p s0 hb
    · rw [hs]; exact ho i sp up s0 hb
  · exact Or.inr ⟨ht, by simp [he]⟩

/-- C2 witness. -/
theorem c2_witness :
    ((⟨"Hola", some "deepl", none⟩ : TransResult).translation ≠ "" ∧
      (⟨"Hola", some "deepl", none⟩ : TransResult).error = none) ∨
    ((⟨"Hola", some "deepl", none⟩ : TransResult).translation = "" ∧
      (⟨"Hola", some "deepl", none⟩ : TransResult).error.isSome) :=
  c2_exactly_one ⟨fun _ _ => Except.ok "Hola", true, fun _ _ => Except.error "g",
      fun _ _ _ => Except.error "o"⟩ ⟨[], 100, 3600⟩ 0 "hello" "es" none "default"
      "k" "" "" false 0 ⟨"Hola", some "deepl", none⟩ ⟨[], 100, 3600⟩
    (fun _ _ s hs => by cases hs; decide)
    (fun _ _ s hs => by cases hs)
    (fun _ _ _ s hs => by cases hs)
    (fun e he => by simp at he)
    rfl

/-- The cache content expected after storing `result` once per `(text,
timestamp)` pair, with a fixed target language, omitted source and fixed
tone. -/
def entries_of (target_lang tone : String) (result : TransResult)
    (xs : List (String × Nat)) : List (String × CacheEntry) :=
  xs.map (fun x => (generate_key x.1 target_lang none tone, ⟨result, x.2⟩))

theorem entries_of_append (target_lang tone : String) (result : TransResult)
    (xs ys : List (String × Nat)) :
    entries_of target_lang tone result (xs ++ ys) =
      entries_of target_lang tone result xs ++ entries_of target_lang tone result ys :=
  List.map_append ..

theorem filter_remove_head {l : List (String × CacheEntry)} {e : String × CacheEntry}
    (hdist : (e :: l).Pairwise (fun a b => a.1 ≠ b.1)) :
    (e :: l).filter (fun p => !((((e :: l).map Prod.fst).take 1).contains p.1)) = l := by
  have hhead : (fun p => !((((e :: l).map Prod.fst).take 1).contains p.1)) e = false := by
    simp
  rw [List.filter_cons_of_neg (by simp [hhead])]
  rw [List.filter_eq_self]
  intro a ha
  have hne : e.1 ≠ a.1 := (List.pairwise_cons.mp hdist).1 a ha
  simp [List.take_succ_cons, Ne.symm hne]

theorem cache_translation_step (M ttl : Nat) (tl tone : String) (res : TransResult)
    (hres : res.translation ≠ "") (herr : res.error = none)
    (ys : List (String × Nat)) (t : String) (ts : Nat)
    (hlen : ys.length ≤ M)
    (hknew : ∀ y ∈ ys, generate_key y.1 tl none tone ≠ generate_key t tl none tone)
    (htnew : ∀ y ∈ ys, y.2 < ts)
    (hsorted : ys.Pairwise (fun a b => a.2 < b.2))
    (hkeys : ys.Pairwise
      (fun a b => generate_key a.1 tl none tone ≠ generate_key b.1 tl none tone)) :
    cache_translation ⟨entries_of tl tone res ys, M, ttl⟩ ts t res tl none tone =
      ⟨entries_of tl tone res ((ys ++ [(t, ts)]).drop (ys.length + 1 - M)), M, ttl⟩ := by
  have hguard : ¬(res.translation = "" ∨ res.error.isSome) := by simp [hres, herr]
  unfold cache_translation
  rw [if_neg hguard]
  have hins : dictInsert (entries_of tl tone res ys) (generate_key t tl none tone) ⟨res, ts⟩ =
      entries_of tl tone res (ys ++ [(t, ts)]) := by
    rw [dictInsert, if_neg, entries_of_append]
    · rfl
    · simp only [List.any_eq_true, not_exists, not_and, Bool.not_eq_true]
      intro p hp
      simp only [entries_of, List.mem_map] at hp
      obtain ⟨y, hy, rfl⟩ := hp
      simp [hknew y hy]
  rw [hins]
  have hpair : (entries_of tl tone res (ys ++ [(t, ts)])).Pairwise
      (fun a b => (decide (a.2.timestamp ≤ b.2.timestamp)) = true) := by
    simp only [entries_of, List.pairwise_map, decide_eq_true_eq]
    rw [List.pairwise_append]
    refine ⟨hsorted.imp (fun h => Nat.le_of_lt h), by simp, ?_⟩
    intro a ha b hb
    simp only [List.mem_singleton] at hb
    subst hb
    exact Nat.le_of_lt (htnew a ha)
  have hkeysall : (entries_of tl tone res (ys ++ [(t, ts)])).Pairwise
      (fun a b => a.1 ≠ b.1) := by
    simp only [entries_of, List.pairwise_map]
    rw [List.pairwise_append]
    refine ⟨hkeys, by simp, ?_⟩
    intro a ha b hb
    simp only [List.mem_singleton] at hb
    subst hb
    exact hknew a ha
  unfold evict_oldest
  have hlen2 : (entries_of tl tone res (ys ++ [(t, ts)])).length = ys.length + 1 := by
    simp [entries_of]
  by_cases hcap : ys.length + 1 ≤ M
  · rw [if_neg (by rw [hlen2]; dsimp only; omega)]
    have hz : ys.length + 1 - M = 0 := by omega
    rw [hz, List.drop_zero]
  · have hM : ys.length = M := by omega
    rw [if_pos (by rw [hlen2]; dsimp only; omega)]
    rw [List.mergeSort_of_sorted hpair, hlen2, hM]
    dsimp only
    rw [Nat.add_sub_cancel_left]
    cases ys with
    | nil =>
        have hM0 : M = 0 := hM.symm
        subst hM0
        simp [entries_of]
    | cons y ys2 =>
        have hsplit : entries_of tl tone res ((y :: ys2) ++ [(t, ts)]) =
            (generate_key y.1 tl none tone, (⟨res, y.2⟩ : CacheEntry)) ::
              entries_of tl tone res (ys2 ++ [(t, ts)]) := rfl
        rw [hsplit]
        rw [filter_remove_head (hsplit ▸ hkeysall)]
        have hdrop : ((y :: ys2) ++ [(t, ts)]).drop 1 = ys2 ++ [(t, ts)] := rfl
        rw [hdrop]

theorem store_all_inv (M ttl : Nat) (tl tone : String) (res : TransResult)
    (hres : res.translation ≠ "") (herr : res.error = none) :
    ∀ (xs ys : List (String × Nat)),
    ((ys ++ xs).Pairwise
      (fun a b => generate_key a.1 tl none tone ≠ generate_key b.1 tl none tone)) →
    ((ys ++ xs).Pairwise (fun a b => a.2 < b.2)) →
    ys.length ≤ M →
    store_all ⟨entries_of tl tone res ys, M, ttl⟩ tl tone res xs =
      ⟨entries_of tl tone res ((ys ++ xs).drop (ys.length + xs.length - M)), M, ttl⟩ := by
  intro xs
  induction xs with
  | nil =>
      intro ys hk ht hlen
      have hz : ys.length - M = 0 := by omega
      simp [store_all, hz]
  | cons x xs ih =>
      intro ys hk ht hlen
      have hk1 : ys.Pairwise
          (fun a b => generate_key a.1 tl none tone ≠ generate_key b.1 tl none tone) :=
        (List.pairwise_append.mp hk).1
      have ht1 : ys.Pairwise (fun a b => a.2 < b.2) := (List.pairwise_append.mp ht).1
      have hknew : ∀ y ∈ ys, generate_key y.1 tl none tone ≠ generate_key x.1 tl none tone :=
        fun y hy => (List.pairwise_append.mp hk).2.2 y hy x (by simp)
      have htnew : ∀ y ∈ ys, y.2 < x.2 :=
        fun y hy => (List.pairwise_append.mp ht).2.2 y hy x (by simp)
      simp only [store_all]
      rw [cache_translation_step M ttl tl tone res hres herr ys x.1 x.2 hlen hknew htnew
        ht1 hk1]
      simp only [Prod.mk.eta]
      have e1 : ((ys ++ [x]).drop (ys.length + 1 - M)) ++ xs =
          (ys ++ x :: xs).drop (ys.length + 1 - M) := by
        rw [← List.drop_append_of_le_length (by simp), List.append_assoc,
          List.singleton_append]
      have hk2 : (((ys ++ [x]).drop (ys.length + 1 - M)) ++ xs).Pairwise
          (fun a b => generate_key a.1 tl none tone ≠ generate_key b.1 tl none tone) := by
        rw [e1]
        exact List.Pairwise.sublist (List.drop_sublist _ _) hk
      have ht2 : (((ys ++ [x]).drop (ys.length + 1 - M)) ++ xs).Pairwise
          (fun a b => a.2 < b.2) := by
        rw [e1]
        exact List.Pairwise.sublist (List.drop_sublist _ _) ht
      have hlen2 : ((ys ++ [x]).drop (ys.length + 1 - M)).length ≤ M := by
        simp only [List.length_drop, List.length_append, List.length_singleton]
        omega
      rw [ih ((ys ++ [x]).drop (ys.length + 1 - M)) hk2 ht2 hlen2]
      have e2 : ((ys ++ [x]).drop (ys.length + 1 - M) ++ xs).drop
          (((ys ++ [x]).drop (ys.length + 1 - M)).length + xs.length - M) =
          (ys ++ x :: xs).drop (ys.length + (x :: xs).length - M) := by
        rw [e1, List.drop_drop, List.length_drop]
        have harith : ys.length + 1 - M +
            ((ys ++ [x]).length - (ys.length + 1 - M) + xs.length - M) =
            ys.length + (x :: xs).length - M := by
          simp only [List.length_append, List.length_singleton, List.length_cons,
            List.length_nil]
          omega
        rw [harith]
      rw [e2]

/-- C6: storing `max_size + k` successful results under pairwise-distinct
keys with strictly increasing timestamps into an empty cache leaves
exactly `max_size` entries, and the survivors are precisely the
`max_size` most recently inserted ones, in insertion order. -/
theorem c6_eviction (M ttl k : Nat) (hk0 : 0 < k) (tl tone : String) (res : TransResult)
    (hres : res.translation ≠ "") (herr : res.error = none)
    (xs : List (String × Nat)) (hlen : xs.length = M + k)
    (hkeys : xs.Pairwise
      (fun a b => generate_key a.1 tl none tone ≠ generate_key b.1 tl none tone))
    (hts : xs.Pairwise (fun a b => a.2 < b.2)) :
    store_all ⟨[], M, ttl⟩ tl tone res xs =
      ⟨entries_of tl tone res (xs.drop (xs.length - M)), M, ttl⟩ ∧
    (store_all ⟨[], M, ttl⟩ tl tone res xs).cache.length = M := by
  have h := store_all_inv M ttl tl tone res hres herr xs [] (by simpa) (by simpa) (by simp)
  simp only [List.nil_append, List.length_nil, Nat.zero_add] at h
  have h' : store_all ⟨[], M, ttl⟩ tl tone res xs =
      ⟨entries_of tl tone res (xs.drop (xs.length - M)), M, ttl⟩ := h
  refine ⟨h', ?_⟩
  rw [h']
  simp only [entries_of, List.length_map, List.length_drop]
  omega

/-- C6 witness. -/
theorem c6_witness :
    store_all ⟨[], 2, 3600⟩ "es" "default" ⟨"T", some "deepl", none⟩
        [("a", 1), ("b", 2), ("c", 3)] =
      ⟨entries_of "es" "default" ⟨"T", some "deepl", none⟩
        ([("a", 1), ("b", 2), ("c", 3)].drop ([("a", 1), ("b", 2), ("c", 3)].length - 2)),
        2, 3600⟩ ∧
    (store_all ⟨[], 2, 3600⟩ "es" "default" ⟨"T", some "deepl", none⟩
        [("a", 1), ("b", 2), ("c", 3)]).cache.length = 2 :=
  c6_eviction 2 3600 1 (by decide) "es" "default" ⟨"T", some "deepl", none⟩ (by decide) rfl
    [("a", 1), ("b", 2), ("c", 3)] rfl (by decide) (by decide)
